import Mathlib

/-!
Verification development for the easton-backend lead-management service.

The service is a set of HTTP request handlers over a relational store
(leads, touch_points, sales_rep, admin), an identity gateway, and a remote
CRM reached through a single RPC endpoint (the jobtread client).  This file
shallowly embeds the handlers the claims are about:

 - the lead-to-customer import workflow (POST /sales-rep/jobtread/customer),
 - the authentication middleware and its token extraction,
 - the job-listing customer batch aggregation (GET /sales-rep/jobs, GET /admin/jobs),
 - the active-leads listing (GET /sales-rep/leads),
 - the touch-point creation handler (POST /sales-rep/leads/:leadId/touch-points).

External effects are passed in explicitly: database state is a value that is
threaded through, CRM calls are oracles giving each call site an outcome
(a thrown error or a parsed response), and the clock and random id generator
are plain parameters.  JavaScript truthiness on optional strings is modelled
by strTruthy and idOf below.
-/

namespace Easton

/-- JS truthiness of a nullable/optional string: null, undefined and the
empty string are falsy, every other string is truthy. -/
def strTruthy : Option String → Bool
  | none => false
  | some s => s ≠ ""

/-- Extraction of a possibly-missing id under JS truthiness: a missing or
empty id is treated as absent, as in checks like
`!customerResponse?.createAccount?.createdAccount?.id`. -/
def idOf : Option String → Option String
  | none => none
  | some s => if s = "" then none else some s

/-- JS string coercion as used by the + operator: undefined renders as the
string "undefined" (relevant when customer_type is absent from the body). -/
def jsString : Option String → String
  | none => "undefined"
  | some s => s

instance {e a : Type} [DecidableEq e] [DecidableEq a] : DecidableEq (Except e a) := fun x y =>
  match x, y with
  | .ok u, .ok v => if h : u = v then .isTrue (by rw [h]) else .isFalse (by simp [h])
  | .error u, .error v => if h : u = v then .isTrue (by rw [h]) else .isFalse (by simp [h])
  | .ok _, .error _ => .isFalse (by simp)
  | .error _, .ok _ => .isFalse (by simp)

/-- Row of the sales_rep table. -/
structure SalesRep where
  uid : String
  name : Option String
  commission_rate : Option Int
  grant_key : Option String
  is_active : Bool
deriving Repr, DecidableEq

/-- Row of the leads table (columns used by the embedded handlers). -/
structure Lead where
  lead_id : String
  name : Option String
  email : Option String
  phone : Option String
  address : Option String
  city : Option String
  state : Option String
  zipcode : Option String
  finance_need : Option String
  channel : Option String
  budget : Option String
  project_interest : Option String
  status : String
  follow_up_date : Option String
  sales_rep : String
  integration_id : Option String
  integration_platform : Option String
  commission_rate : Option Int
  created_at : Nat
deriving Repr, DecidableEq

/-- Row of the touch_points table. -/
structure TouchPoint where
  touch_id : String
  uid : String
  lead_id : String
  contact_method : String
  description : Option String
  system_note : Option String
  created_at : Nat
  is_active : Bool
deriving Repr, DecidableEq

/-- Row of the admin table (columns used by the role lookup). -/
structure AdminRow where
  uid : String
  is_active : Bool
deriving Repr, DecidableEq

/-- The relational store. -/
structure Db where
  sales_reps : List SalesRep
  leads : List Lead
  touch_points : List TouchPoint
  admins : List AdminRow
deriving Repr, DecidableEq

/-- Rows returned by SELECT ... FROM sales_rep WHERE uid = ? AND is_active = 1. -/
def activeRepRows (db : Db) (uid : String) : List SalesRep :=
  db.sales_reps.filter (fun r => r.uid == uid && r.is_active)

/-- Rows returned by SELECT ... FROM admin WHERE uid = ? AND is_active = 1. -/
def activeAdminRows (db : Db) (uid : String) : List AdminRow :=
  db.admins.filter (fun r => r.uid == uid && r.is_active)

/-- Rows returned by SELECT ... FROM leads WHERE lead_id = ? AND sales_rep = ?. -/
def leadRowsFor (db : Db) (leadId uid : String) : List Lead :=
  db.leads.filter (fun l => l.lead_id == leadId && l.sales_rep == uid)

/-- Rows returned by SELECT description, system_note, created_at FROM touch_points
WHERE lead_id = ? AND is_active = 1 ORDER BY created_at ASC.  The ORDER BY is a
stable ascending sort on created_at, modelled by insertion sort. -/
def activeTouchPointsAsc (db : Db) (leadId : String) : List TouchPoint :=
  List.insertionSort (fun a b => a.created_at ≤ b.created_at)
    (db.touch_points.filter (fun tp => tp.lead_id == leadId && tp.is_active))

instance : IsTotal TouchPoint (fun a b => a.created_at ≤ b.created_at) :=
  ⟨fun a b => Nat.le_total a.created_at b.created_at⟩

instance : IsTrans TouchPoint (fun a b => a.created_at ≤ b.created_at) :=
  ⟨fun _ _ _ h h2 => Nat.le_trans h h2⟩

/-- Per-call-site outcomes of the CRM RPC client (the jobtread function) for one
execution of the import workflow.  An `.error` value models a thrown error
(transport failure or non-2xx HTTP status); an `.ok` value carries the nested
created id the caller null-checks, with none standing for a response in which
the id is missing or empty.  touchComment is indexed by the position of the
touch point in the replay loop. -/
structure CrmBehavior where
  createAccount : Except Unit (Option String)
  createContact : Except Unit (Option String)
  createLocation : Except Unit (Option String)
  touchComment : Nat → Except Unit Unit
  intakeComment : Except Unit Unit
  createJob : Except Unit (Option String)
  copyChecklist : Except Unit Unit

/-- Observable steps of the import workflow, in issue order: CRM calls and the
single local database write. -/
inductive Event where
  | crmCreateAccount (accountName : String)
  | dbUpdateLeadImported (leadId customerId : String) (rate : Int)
  | crmCreateContact (accountId : String)
  | crmCreateLocation (accountId : String)
  | crmTouchComment (targetId : String) (tp : TouchPoint)
  | crmIntakeComment (targetId : String)
  | crmCreateJob (locationId : String)
  | crmCopyChecklist (jobId : String) (taskTemplateId : String) (notify : Bool)
deriving Repr, DecidableEq

/-- Result of one run of the import handler: HTTP status, database state after
the run, the ordered trace of issued steps, and the created customer id
returned in the 201 body (none on failure). -/
structure ImportOutcome where
  status : Nat
  db : Db
  events : List Event
  customerId : Option String
deriving Repr, DecidableEq

/-- Environment configuration read by the import handler. -/
structure ImportEnv where
  organizationId : Option String
  currentEnvironment : Option String
deriving Repr, DecidableEq

/-- Authenticated request to POST /sales-rep/jobtread/customer: uid from the
attached user record, grantKey from the auth middleware, and the body fields. -/
structure ImportReq where
  uid : Option String
  grantKey : Option String
  lead_id : Option String
  customer_type : Option String
  customer_title : Option String
  contact_notes : Option String
deriving Repr, DecidableEq

/-- Context assembled by the precondition checks of the import handler. -/
structure ImportCtx where
  uid : String
  organizationId : String
  leadId : String
  grantKey : String
  salesRepName : String
  salesRepCommissionRate : Int
  lead : Lead
deriving Repr, DecidableEq

/-- Precondition checks of POST /sales-rep/jobtread/customer in source order;
`.error s` is the HTTP status of the first failing check: missing uid 401,
missing organization id 500, missing lead_id 400, missing grant key 400,
no active sales_rep row 404, no owned lead row 404, lead without a name 400. -/
def precheck (env : ImportEnv) (req : ImportReq) (db : Db) : Except Nat ImportCtx :=
  match idOf req.uid with
  | none => .error 401
  | some uid =>
    match idOf env.organizationId with
    | none => .error 500
    | some orgId =>
      match idOf req.lead_id with
      | none => .error 400
      | some leadId =>
        match idOf req.grantKey with
        | none => .error 400
        | some gk =>
          match activeRepRows db uid with
          | [] => .error 404
          | rep :: _ =>
            match leadRowsFor db leadId uid with
            | [] => .error 404
            | lead :: _ =>
              if strTruthy lead.name then
                .ok { uid := uid, organizationId := orgId, leadId := leadId, grantKey := gk,
                      salesRepName := (idOf rep.name).getD "Unknown",
                      salesRepCommissionRate := rep.commission_rate.getD 0,
                      lead := lead }
              else .error 400

/-- Display name sent to the CRM create-account mutation:
a [TEST] marker in the DEV environment, then the lead name, a space, and the
customer_type body field coerced JS-style. -/
def accountNameOf (env : ImportEnv) (req : ImportReq) (leadName : Option String) : String :=
  (if env.currentEnvironment == some "DEV" then "[TEST] " else "")
    ++ jsString leadName ++ " " ++ jsString req.customer_type

/-- Outcome of best-effort step [3], contact creation: attempted only when the
lead has a truthy email or phone; on a thrown error the handler logs and keeps
contactId null.  The contact id is held in memory only and is consumed solely
as a value by the location call, so it does not gate any later step. -/
def contactIdOf (lead : Lead) (crm : CrmBehavior) : Option String :=
  if strTruthy lead.email || strTruthy lead.phone then
    match crm.createContact with
    | .ok i => idOf i
    | .error _ => none
  else none

/-- Outcome of best-effort step [4], location creation: attempted only when the
lead has both a truthy address and a truthy city; on a thrown error the handler
logs and keeps locationId null. -/
def locationIdOf (lead : Lead) (crm : CrmBehavior) : Option String :=
  if strTruthy lead.address && strTruthy lead.city then
    match crm.createLocation with
    | .ok i => idOf i
    | .error _ => none
  else none

/-- Outcome of best-effort step [7], job creation: attempted only when step [4]
produced a location id; on a thrown error the handler logs and keeps jobId null. -/
def jobIdOf (lead : Lead) (crm : CrmBehavior) : Option String :=
  match locationIdOf lead crm with
  | some _ =>
    match crm.createJob with
    | .ok i => idOf i
    | .error _ => none
  | none => none

/-- Effect of UPDATE leads SET status = Imported, integration_id = ?,
integration_platform = ?, commission_rate = ? WHERE lead_id = ?. -/
def updateLeadImported (db : Db) (leadId cid : String) (rate : Int) : Db :=
  { db with leads := db.leads.map (fun l =>
      if l.lead_id == leadId then
        { l with status := "Imported", integration_id := some cid,
                 integration_platform := some "JobTread", commission_rate := some rate }
      else l) }

/-- The import workflow after the critical create-account step returned a truthy
customer id cid: step [2] writes the integration details to the leads table,
then steps [3]-[8] run best-effort, each wrapped in its own try/catch so that a
thrown error is logged and skipped.  The touch-point replay loop issues one
create-comment call per active touch point of the lead in ascending created_at
order, the loop body catching errors individually, so every comment is issued
regardless of earlier outcomes.  The job call is gated on the location id and
the checklist call on the job id. -/
def importSteps (env : ImportEnv) (req : ImportReq) (crm : CrmBehavior) (db : Db)
    (ctx : ImportCtx) (cid : String) : ImportOutcome :=
  let db1 := updateLeadImported db ctx.leadId cid ctx.salesRepCommissionRate
  let contactAttempted := strTruthy ctx.lead.email || strTruthy ctx.lead.phone
  let locationAttempted := strTruthy ctx.lead.address && strTruthy ctx.lead.city
  let intakeAttempted := strTruthy ctx.lead.finance_need || strTruthy ctx.lead.channel
    || strTruthy ctx.lead.budget || strTruthy ctx.lead.project_interest
  { status := 201
    db := db1
    events :=
      Event.crmCreateAccount (accountNameOf env req ctx.lead.name)
        :: Event.dbUpdateLeadImported ctx.leadId cid ctx.salesRepCommissionRate
        :: ((if contactAttempted then [Event.crmCreateContact cid] else [])
          ++ (if locationAttempted then [Event.crmCreateLocation cid] else [])
          ++ (activeTouchPointsAsc db1 ctx.leadId).map (fun tp => Event.crmTouchComment cid tp)
          ++ (if intakeAttempted then [Event.crmIntakeComment cid] else [])
          ++ (match locationIdOf ctx.lead crm with
              | some lid => [Event.crmCreateJob lid]
              | none => [])
          ++ (match jobIdOf ctx.lead crm with
              | some jid => [Event.crmCopyChecklist jid "22PEApzGMSk8" false]
              | none => []))
    customerId := some cid }

/-- POST /sales-rep/jobtread/customer.  After the preconditions, the critical
step issues the CRM create-account mutation: a thrown error reaches the outer
catch (500, Internal server error) and a response without a created-account id
returns 500 (Failed to create customer account); in both cases no local write
has happened.  Otherwise the workflow of importSteps runs and the handler
responds 201 with the created customer. -/
def importCustomer (env : ImportEnv) (req : ImportReq) (crm : CrmBehavior) (db : Db) :
    ImportOutcome :=
  match precheck env req db with
  | .error s => { status := s, db := db, events := [], customerId := none }
  | .ok ctx =>
    match crm.createAccount with
    | .error _ =>
      { status := 500, db := db,
        events := [Event.crmCreateAccount (accountNameOf env req ctx.lead.name)],
        customerId := none }
    | .ok created =>
      match idOf created with
      | none =>
        { status := 500, db := db,
          events := [Event.crmCreateAccount (accountNameOf env req ctx.lead.name)],
          customerId := none }
      | some cid => importSteps env req crm db ctx cid

/-- Projection extracting the touch point of a touch-point-replay comment call
from a trace event. -/
def eventTouchPoint : Event → Option TouchPoint
  | .crmTouchComment _ tp => some tp
  | _ => none

/-- The literal Bearer prefix string checked by the token extraction. -/
def bearerMark : String := "Bearer "

/-- Token extraction of the auth middleware: a header starting with the Bearer
mark has the first seven characters stripped by substring(7) — the mark is
seven ASCII characters, so on the character level this drops exactly it —
and any other header is used verbatim as the token. -/
def extractToken (authHeader : String) : String :=
  if bearerMark.data.isPrefixOf authHeader.data then ⟨authHeader.data.drop 7⟩ else authHeader

/-- Identity-provider user record attached to the request context. -/
structure UserRecord where
  uid : String
deriving Repr, DecidableEq

/-- Oracle for the identity gateway: token verification yields the decoded uid
(none when the decoded token carries no uid) and user lookup by uid yields the
record; an `.error` value models a rejected call. -/
structure IdentityGateway where
  verifyIdToken : String → Except Unit (Option String)
  getUser : String → Except Unit (Option UserRecord)

/-- Result of the auth middleware: httpStatus is some 401 when the gate failed
closed, and none when next() was called; on success the attached request
context carries userRecord, userRole and grantKey. -/
structure AuthOutcome where
  httpStatus : Option Nat
  userRecord : Option UserRecord
  userRole : List String
  grantKey : Option String
deriving Repr, DecidableEq

/-- The 401 fail-closed outcome of the auth middleware. -/
def authFail : AuthOutcome :=
  { httpStatus := some 401, userRecord := none, userRole := [], grantKey := none }

/-- Modelled from the spec: the grant-key attachment step of the AuthZ Gate.
The copy of the auth middleware present in the tree attaches only userRecord
and userRole, while the import and jobs routes all read req.grantKey, so the
middleware revision that attaches it is missing; per the spec, grantKey is the
sales_rep.grant_key column value whenever the caller has the sales_rep role,
and for admin-only callers the key choice is an explicit per-deployment
policy, modelled by the adminKeyPolicy parameter. -/
def resolveGrantKey (db : Db) (uid : String) (roles : List String)
    (adminKeyPolicy : Option String) : Option String :=
  if "sales_rep" ∈ roles then
    match activeRepRows db uid with
    | rep :: _ => rep.grant_key
    | [] => none
  else adminKeyPolicy

/-- The auth middleware: extract the bearer credential from the Authorization
header (empty or missing fails closed 401), verify it with the identity
gateway, resolve the user record, look up the active sales_rep and admin rows
of the uid to build the role list in that order, and attach userRecord,
userRole and grantKey to the request context. -/
def authMiddleware (idp : IdentityGateway) (db : Db) (adminKeyPolicy : Option String)
    (authorizationHeader : Option String) : AuthOutcome :=
  match idOf authorizationHeader with
  | none => authFail
  | some authHeader =>
    let token := extractToken authHeader
    if token = "" then authFail
    else
      match idp.verifyIdToken token with
      | .error _ => authFail
      | .ok uidOpt =>
        match idOf uidOpt with
        | none => authFail
        | some uid =>
          match idp.getUser uid with
          | .error _ => authFail
          | .ok none => authFail
          | .ok (some userRecord) =>
            let agentRows := activeRepRows db uid
            let adminRows := activeAdminRows db uid
            let roles := (if agentRows.length > 0 then ["sales_rep"] else [])
              ++ (if adminRows.length > 0 then ["admin"] else [])
            { httpStatus := none, userRecord := some userRecord, userRole := roles,
              grantKey := resolveGrantKey db uid roles adminKeyPolicy }

/-- Row filter and ordering of the complexQuery of GET /sales-rep/leads: the
leads of the rep whose status differs from Imported, newest first.  The
LEFT-JOINed touch-point aggregate columns of the query decorate rows but do
not affect which lead rows are returned. -/
def activeLeadsListing (db : Db) (uid : String) : List Lead :=
  List.insertionSort (fun a b => b.created_at ≤ a.created_at)
    (db.leads.filter (fun l => l.sales_rep == uid && l.status != "Imported"))

/-- Request to POST /sales-rep/leads/:leadId/touch-points. -/
structure TouchPointReq where
  uid : Option String
  leadId : String
  contact_method : Option String
  description : Option String
  status : Option String
  follow_up_date : Option String
deriving Repr, DecidableEq

/-- Response body data of a successful touch-point creation (fields the claim
is about; the description field carries systemNote, as in the source). -/
structure TouchPointResp where
  touch_id : String
  follow_up_date : Option String
  new_status : Option String
  status_updated : Bool
  description : String
deriving Repr, DecidableEq

/-- Result of the touch-point creation handler: HTTP status, database after
the run, and the 201 response data when created. -/
structure TouchPointOutcome where
  httpStatus : Nat
  db : Db
  resp : Option TouchPointResp
deriving Repr, DecidableEq

/-- Effect of UPDATE leads SET status = ? WHERE lead_id = ?. -/
def updateLeadStatus (db : Db) (leadId s : String) : Db :=
  { db with leads := db.leads.map (fun l =>
      if l.lead_id == leadId then { l with status := s } else l) }

/-- Effect of UPDATE leads SET follow_up_date = ? WHERE lead_id = ?
(NULL when none). -/
def updateLeadFollowUpDate (db : Db) (leadId : String) (d : Option String) : Db :=
  { db with leads := db.leads.map (fun l =>
      if l.lead_id == leadId then { l with follow_up_date := d } else l) }

/-- Tail of the touch-point handler: INSERT the touch point row and build the
201 response.  respFollowUp receives the OUTER finalFollowUpDate block
variable of the handler, which the source initializes to null and never
reassigns, because the Follow-up branch declares a new block-local variable of
the same name for its database write. -/
def finishTouchPoint (req : TouchPointReq) (uid : String) (db2 : Db) (touchId : String)
    (nowCreatedAt : Nat) (systemNote : String) (statusUpdated : Bool)
    (respFollowUp : Option String) : TouchPointOutcome :=
  let newRow : TouchPoint :=
    { touch_id := touchId, uid := uid, lead_id := req.leadId,
      contact_method := jsString req.contact_method, description := req.description,
      system_note := some systemNote, created_at := nowCreatedAt, is_active := true }
  { httpStatus := 201
    db := { db2 with touch_points := db2.touch_points ++ [newRow] }
    resp := some
      { touch_id := touchId
        follow_up_date := respFollowUp
        new_status := if strTruthy req.status then req.status else none
        status_updated := statusUpdated
        description := systemNote } }

/-- POST /sales-rep/leads/:leadId/touch-points.  touchId (random id),
nowCreatedAt (insert timestamp) and twoDaysFromNow (the YYYY-MM-DD rendering
of the clock two days ahead) are oracle inputs.  The ownership query selects
only lead_id, so the in-memory currentLead row has no status column and the
comparison in the status-change condition is against undefined (none here).
The outer finalFollowUpDate is initialized null; inside the Follow-up branch
the source declares a new block-local finalFollowUpDate (followUpShadow here)
that shadows it for the database write and the system note, so the response
always carries the outer null. -/
def createTouchPoint (req : TouchPointReq) (db : Db) (touchId : String)
    (nowCreatedAt : Nat) (twoDaysFromNow : String) : TouchPointOutcome :=
  match idOf req.uid with
  | none => { httpStatus := 401, db := db, resp := none }
  | some uid =>
    if !(strTruthy req.contact_method && strTruthy req.description) then
      { httpStatus := 400, db := db, resp := none }
    else if !(["Phone Call", "Email", "Text Message"].contains (jsString req.contact_method)) then
      { httpStatus := 400, db := db, resp := none }
    else
      match leadRowsFor db req.leadId uid with
      | [] => { httpStatus := 404, db := db, resp := none }
      | _currentLead :: _ =>
        let currentLeadStatus : Option String := none
        let finalFollowUpDate : Option String := none
        if strTruthy req.status && req.status != currentLeadStatus then
          let s := jsString req.status
          let dbS := updateLeadStatus db req.leadId s
          if s = "Follow-up" then
            let followUpShadow : String :=
              match idOf req.follow_up_date with
              | some d => d
              | none => twoDaysFromNow
            let dbF := updateLeadFollowUpDate dbS req.leadId (some followUpShadow)
            finishTouchPoint req uid dbF touchId nowCreatedAt
              ("Follow-up on " ++ followUpShadow ++ ".") true finalFollowUpDate
          else
            let dbF := updateLeadFollowUpDate dbS req.leadId none
            finishTouchPoint req uid dbF touchId nowCreatedAt
              ("Change status to " ++ s ++ ".") true finalFollowUpDate
        else
          finishTouchPoint req uid db touchId nowCreatedAt "" false finalFollowUpDate

/-- The JOBTREAD_BATCH_SIZE constant of the jobs listings. -/
def JOBTREAD_BATCH_SIZE : Nat := 10

/-- Structural helper for the chunking loop: fuel bounds the number of
iterations and is set to the list length, which the loop never exhausts since
every iteration consumes ten elements of a non-empty remainder. -/
def batchesOfAux {α : Type} : Nat → List α → List (List α)
  | 0, _ => []
  | _, [] => []
  | fuel + 1, ids => ids.take JOBTREAD_BATCH_SIZE :: batchesOfAux fuel (ids.drop JOBTREAD_BATCH_SIZE)

/-- The chunking loop of the jobs listings: slice the id list into consecutive
chunks of JOBTREAD_BATCH_SIZE, the last chunk possibly shorter. -/
def batchesOf {α : Type} (ids : List α) : List (List α) :=
  batchesOfAux ids.length ids

/-- Job node of a customer account returned by the batched accounts query. -/
structure JtJob where
  id : String
  name : String
deriving Repr, DecidableEq

/-- Customer account node returned by the batched accounts query; jobs is the
optional jobs.nodes payload the matcher defensively checks before copying. -/
structure JtAccount where
  id : String
  name : String
  jobs : Option (List JtJob)
deriving Repr, DecidableEq

/-- Customer row of the jobs listing: a local Imported lead enriched in place
with integration_name and a jobs array. -/
structure CustomerRow where
  integration_id : Option String
  integration_platform : Option String
  integration_name : Option String
  jobs : List JtJob
deriving Repr, DecidableEq

/-- Customer batch loop of GET /sales-rep/jobs and GET /admin/jobs.  The
try/catch sits OUTSIDE the for-loop over the batches: a batch call that
throws is caught outside, so accumulation stops there and the remaining
batches are never issued.  Returns the accumulated account nodes and the
trace of batch calls actually issued. -/
def customerBatchLoop (crmFetch : List (Option String) → Except Unit (List JtAccount)) :
    List (List (Option String)) → List JtAccount × List (List (Option String))
  | [] => ([], [])
  | batch :: rest =>
    match crmFetch batch with
    | .error _ => ([], [batch])
    | .ok accounts =>
      let tail := customerBatchLoop crmFetch rest
      (accounts ++ tail.1, batch :: tail.2)

/-- The matching forEach of the jobs listings: for each JobTread customer with
a truthy integration id, find the fetched account node with the same id and
copy its name and, when present, its jobs nodes onto the row; rows without a
match keep null name and empty jobs.  Skipped when nothing was fetched. -/
def matchCustomers (customers : List CustomerRow) (jobTreadJobs : List JtAccount) :
    List CustomerRow :=
  if jobTreadJobs.length > 0 then
    customers.map (fun c =>
      if c.integration_platform == some "JobTread" && (idOf c.integration_id).isSome then
        match jobTreadJobs.find? (fun a => some a.id == c.integration_id) with
        | some m =>
          { c with
              integration_name := some m.name
              jobs := match m.jobs with | some js => js | none => c.jobs }
        | none => c
      else c)
  else customers

/-- Customer aggregation of the jobs listings through the account-fetch merge:
reset integration_name and jobs on every Imported row, collect the integration
ids of the JobTread rows (possibly-null values, as Array.map keeps them),
fetch account nodes in batches of ten, and merge names and jobs back.  The
subsequent document fetch for estimates and contracts only appends to the
estimates and contracts arrays and leaves the merged names and jobs unchanged,
so the merged customer list below is the final one for those fields. -/
def jobsCustomerAggregation (crmFetch : List (Option String) → Except Unit (List JtAccount))
    (orgConfigured : Bool) (importedLeads : List CustomerRow) :
    List CustomerRow × List (List (Option String)) :=
  let customers := importedLeads.map (fun c => { c with integration_name := none, jobs := [] })
  let jobTreadCustomerIds :=
    (customers.filter (fun c => c.integration_platform == some "JobTread")).map
      (fun c => c.integration_id)
  let fetched :=
    if jobTreadCustomerIds.length > 0 then
      if orgConfigured then customerBatchLoop crmFetch (batchesOf jobTreadCustomerIds)
      else ([], [])
    else ([], [])
  (matchCustomers customers fetched.1, fetched.2)

/-- Concrete environment for the import witnesses. -/
def envW : ImportEnv := { organizationId := some "org1", currentEnvironment := some "PROD" }

/-- Concrete import request for the witnesses. -/
def reqW : ImportReq :=
  { uid := some "rep1", grantKey := some "gk1", lead_id := some "L1",
    customer_type := some "Residence", customer_title := none, contact_notes := none }

/-- Concrete active sales rep row for the witnesses. -/
def repW : SalesRep :=
  { uid := "rep1", name := some "Rhea", commission_rate := some 7,
    grant_key := some "gk1", is_active := true }

/-- Concrete lead row for the witnesses. -/
def leadW : Lead :=
  { lead_id := "L1", name := some "Jane Doe", email := some "jane@x.com", phone := none,
    address := some "1 Elm St", city := some "Fresno", state := some "CA",
    zipcode := some "93650", finance_need := some "Yes", channel := none, budget := none,
    project_interest := none, status := "New", follow_up_date := none, sales_rep := "rep1",
    integration_id := none, integration_platform := none, commission_rate := none,
    created_at := 1 }

/-- Later-created touch point (created_at 9), listed first in the table. -/
def tpW1 : TouchPoint :=
  { touch_id := "t1", uid := "rep1", lead_id := "L1", contact_method := "Email",
    description := some "second reach-out", system_note := none, created_at := 9,
    is_active := true }

/-- Earlier-created touch point (created_at 3), listed second in the table. -/
def tpW2 : TouchPoint :=
  { touch_id := "t2", uid := "rep1", lead_id := "L1", contact_method := "Phone Call",
    description := some "first reach-out", system_note := some "Change status to Contacted.",
    created_at := 3, is_active := true }

/-- Concrete database for the import witnesses. -/
def dbW : Db :=
  { sales_reps := [repW], leads := [leadW], touch_points := [tpW1, tpW2], admins := [] }

/-- Context produced by the precondition checks on the concrete fixtures. -/
def ctxW : ImportCtx :=
  { uid := "rep1", organizationId := "org1", leadId := "L1", grantKey := "gk1",
    salesRepName := "Rhea", salesRepCommissionRate := 7, lead := leadW }

/-- CRM behavior whose create-account call throws. -/
def crmFailW : CrmBehavior :=
  { createAccount := .error (), createContact := .ok (some "ct1"),
    createLocation := .ok (some "loc1"), touchComment := fun _ => .ok (),
    intakeComment := .ok (), createJob := .ok (some "job1"), copyChecklist := .ok () }

/-- CRM behavior whose create-account call succeeds while the contact call and
every touch-point comment call throw. -/
def crmOkW : CrmBehavior :=
  { createAccount := .ok (some "cust1"), createContact := .error (),
    createLocation := .ok (some "loc1"), touchComment := fun _ => .error (),
    intakeComment := .ok (), createJob := .ok (some "job1"), copyChecklist := .ok () }

/-- The lead row as rewritten by the commit write of the concrete import. -/
def leadW3 : Lead :=
  { leadW with
      status := "Imported"
      integration_id := some "cust1"
      integration_platform := some "JobTread"
      commission_rate := some 7 }

/-- Concrete identity gateway for the auth witness. -/
def idpW : IdentityGateway :=
  { verifyIdToken := fun t => if t = "token1" then .ok (some "rep1") else .error (),
    getUser := fun uid => if uid = "rep1" then .ok (some { uid := "rep1" }) else .ok none }

/-- Concrete user record for the auth witness. -/
def uW : UserRecord := { uid := "rep1" }

/-- Database holding one Imported lead, for the listing witness. -/
def dbImportedW : Db := { dbW with leads := [leadW3] }

/-- Concrete request for the touch-point witness: a Follow-up status change
with a supplied follow-up date. -/
def tpReqW : TouchPointReq :=
  { uid := some "rep1", leadId := "L1", contact_method := some "Email",
    description := some "called back", status := some "Follow-up",
    follow_up_date := some "2026-10-20" }

/-- Expected 201 response data of the touch-point witness. -/
def tpRespW : TouchPointResp :=
  { touch_id := "tpX", follow_up_date := none, new_status := some "Follow-up",
    status_updated := true, description := "Follow-up on 2026-10-20." }

/-- The twenty-five JobTread integration ids of the batching fixtures. -/
def c6IdStrings : List String :=
  ["c01", "c02", "c03", "c04", "c05", "c06", "c07", "c08", "c09", "c10",
   "c11", "c12", "c13", "c14", "c15", "c16", "c17", "c18", "c19", "c20",
   "c21", "c22", "c23", "c24", "c25"]

/-- The same ids as the possibly-null values Array.map produces. -/
def c6Ids : List (Option String) := c6IdStrings.map some

/-- First batch of ten ids. -/
def c6Batch1 : List (Option String) := c6Ids.take 10

/-- Second batch of ten ids. -/
def c6Batch2 : List (Option String) := (c6Ids.drop 10).take 10

/-- Third batch of five ids. -/
def c6Batch3 : List (Option String) := (c6Ids.drop 10).drop 10

/-- Account node returned by the first batch call. -/
def c6Acct1 : JtAccount :=
  { id := "c01", name := "Acme 1", jobs := some [{ id := "j1", name := "Kitchen remodel" }] }

/-- Account node the third batch call would return. -/
def c6Acct3 : JtAccount := { id := "c25", name := "Acme 25", jobs := none }

/-- CRM accounts-batch behavior whose second call throws while the first and
third calls would succeed. -/
def c6CrmFail : List (Option String) → Except Unit (List JtAccount) := fun b =>
  if b = c6Batch2 then .error ()
  else if b = c6Batch1 then .ok [c6Acct1]
  else .ok [c6Acct3]

/-- Twenty-five imported JobTread leads for the batching counterexample. -/
def c6Leads : List CustomerRow :=
  c6IdStrings.map (fun s =>
    { integration_id := some s, integration_platform := some "JobTread",
      integration_name := none, jobs := [] })

/-- The import-flag update leaves the touch_points table unchanged, so the
replay query reads the same rows before and after the commit write. -/
theorem activeTouchPointsAsc_updateLeadImported (db : Db) (leadId cid : String)
    (rate : Int) (lid2 : String) :
    activeTouchPointsAsc (updateLeadImported db leadId cid rate) lid2
      = activeTouchPointsAsc db lid2 := rfl

/-- Membership in a conditionally-present singleton trace segment. -/
theorem mem_cond_singleton {α : Type} (x y : α) (b : Bool) :
    x ∈ (if b then [y] else ([] : List α)) ↔ (b = true ∧ x = y) := by
  cases b <;> simp

/-- Extracting touch points back out of the replay segment of the trace
recovers the replayed list itself. -/
theorem filterMap_touch_map (cid : String) (l : List TouchPoint) :
    List.filterMap eventTouchPoint (l.map (fun tp => Event.crmTouchComment cid tp)) = l := by
  induction l with
  | nil => rfl
  | cons x xs ih => simp [eventTouchPoint, ih]

/-- Variant of filterMap_touch_map with the composition already folded, the
form simp normalizes to. -/
theorem filterMap_touch_comp (cid : String) (l : List TouchPoint) :
    List.filterMap (eventTouchPoint ∘ fun tp => Event.crmTouchComment cid tp) l = l := by
  induction l with
  | nil => rfl
  | cons x xs ih => simp [eventTouchPoint, ih, Function.comp]

/-- Claim C1: when the import request passes all preconditions and the CRM
create-account call throws or returns no created-account id, the handler
responds 500 and the leads table is left unchanged; in particular no
status/integration_id/integration_platform/commission_rate write is issued. -/
theorem c1_critical_failure_no_side_effects
    (env : ImportEnv) (req : ImportReq) (crm : CrmBehavior) (db : Db) (ctx : ImportCtx)
    (hpre : precheck env req db = .ok ctx)
    (hfail : crm.createAccount = .error ()
      ∨ ∃ a, crm.createAccount = .ok a ∧ idOf a = none) :
    (importCustomer env req crm db).status = 500
    ∧ (importCustomer env req crm db).db = db
    ∧ ∀ l c r, Event.dbUpdateLeadImported l c r ∉ (importCustomer env req crm db).events := by
  rcases hfail with h | ⟨a, ha, hid⟩
  · simp [importCustomer, hpre, h]
  · simp [importCustomer, hpre, ha, hid]

/-- Claim C2: when the critical create-account step returns a customer id, the
local write marking the lead Imported (with the id, the platform tag and the
rep commission rate) is the very next step after the create-account call,
before any best-effort step appears in the trace. -/
theorem c2_lead_update_precedes_best_effort
    (env : ImportEnv) (req : ImportReq) (crm : CrmBehavior) (db : Db) (ctx : ImportCtx)
    (hpre : precheck env req db = .ok ctx)
    (a : Option String) (cid : String)
    (hok : crm.createAccount = .ok a) (hid : idOf a = some cid) :
    ∃ rest, (importCustomer env req crm db).events =
      Event.crmCreateAccount (accountNameOf env req ctx.lead.name)
      :: Event.dbUpdateLeadImported ctx.leadId cid ctx.salesRepCommissionRate :: rest := by
  simp only [importCustomer, hpre, hok, hid, importSteps]
  exact ⟨_, rfl⟩

/-- Claim C3: once the critical create-account step succeeds, the handler
responds 201 with the created customer id and the lead row keeps the persisted
integration details, for every behavior of the best-effort steps — in
particular when the contact-creation call throws. -/
theorem c3_best_effort_failure_keeps_import
    (env : ImportEnv) (req : ImportReq) (crm : CrmBehavior) (db : Db) (ctx : ImportCtx)
    (hpre : precheck env req db = .ok ctx)
    (a : Option String) (cid : String)
    (hok : crm.createAccount = .ok a) (hid : idOf a = some cid) :
    (importCustomer env req crm db).status = 201
    ∧ (importCustomer env req crm db).customerId = some cid
    ∧ ∀ l ∈ (importCustomer env req crm db).db.leads, l.lead_id = ctx.leadId →
        l.status = "Imported" ∧ l.integration_id = some cid
        ∧ l.integration_platform = some "JobTread"
        ∧ l.commission_rate = some ctx.salesRepCommissionRate := by
  refine ⟨?_, ?_, ?_⟩
  · simp [importCustomer, hpre, hok, hid, importSteps]
  · simp [importCustomer, hpre, hok, hid, importSteps]
  · intro l hl hlid
    simp only [importCustomer, hpre, hok, hid, importSteps, updateLeadImported] at hl
    rcases List.mem_map.1 hl with ⟨l0, _, rfl⟩
    by_cases hbe : l0.lead_id == ctx.leadId
    · simp [hbe]
    · rw [if_neg hbe] at hlid ⊢
      exact absurd (beq_iff_eq.2 hlid) hbe

/-- Claim C5: with N active touch points on the lead, the 201 trace contains
exactly one touch-point comment call per active touch point, replayed in
ascending created_at order, and the replayed sequence does not depend on the
outcomes of the comment calls themselves (the equality below holds for every
CRM behavior whose create-account call returned the id). -/
theorem c5_touch_point_replay
    (env : ImportEnv) (req : ImportReq) (crm : CrmBehavior) (db : Db) (ctx : ImportCtx)
    (hpre : precheck env req db = .ok ctx)
    (a : Option String) (cid : String)
    (hok : crm.createAccount = .ok a) (hid : idOf a = some cid) :
    (importCustomer env req crm db).events.filterMap eventTouchPoint
        = activeTouchPointsAsc db ctx.leadId
    ∧ ((importCustomer env req crm db).events.filterMap eventTouchPoint).length
        = (db.touch_points.filter (fun tp => tp.lead_id == ctx.leadId && tp.is_active)).length
    ∧ List.Sorted (fun x y => x.created_at ≤ y.created_at)
        (activeTouchPointsAsc db ctx.leadId) := by
  have hmain : (importCustomer env req crm db).events.filterMap eventTouchPoint
      = activeTouchPointsAsc db ctx.leadId := by
    simp only [importCustomer, hpre, hok, hid, importSteps,
      activeTouchPointsAsc_updateLeadImported]
    cases hL : locationIdOf ctx.lead crm <;> cases hJ : jobIdOf ctx.lead crm <;>
      simp [List.filterMap_append, filterMap_touch_map, filterMap_touch_comp,
        eventTouchPoint, apply_ite (List.filterMap eventTouchPoint)]
  refine ⟨hmain, ?_, ?_⟩
  · rw [hmain]
    simp [activeTouchPointsAsc, List.length_insertionSort]
  · exact List.sorted_insertionSort _ _

/-- Claim C8: in the 201 trace, a CRM create-job call appears exactly for the
location id the location step produced (so only if that step produced one),
and the checklist call — copying the fixed sales-process task template,
non-notifying — appears exactly for the job id the job step produced. -/
theorem c8_job_and_checklist_gating
    (env : ImportEnv) (req : ImportReq) (crm : CrmBehavior) (db : Db) (ctx : ImportCtx)
    (hpre : precheck env req db = .ok ctx)
    (a : Option String) (cid : String)
    (hok : crm.createAccount = .ok a) (hid : idOf a = some cid) :
    (∀ lid, Event.crmCreateJob lid ∈ (importCustomer env req crm db).events
        ↔ locationIdOf ctx.lead crm = some lid)
    ∧ (∀ jid, Event.crmCopyChecklist jid "22PEApzGMSk8" false
          ∈ (importCustomer env req crm db).events
        ↔ jobIdOf ctx.lead crm = some jid) := by
  simp only [importCustomer, hpre, hok, hid, importSteps]
  constructor
  · intro lid
    cases hL : locationIdOf ctx.lead crm <;> cases hJ : jobIdOf ctx.lead crm <;>
      simp [List.mem_append, List.mem_map, mem_cond_singleton] <;>
      exact eq_comm
  · intro jid
    cases hL : locationIdOf ctx.lead crm <;> cases hJ : jobIdOf ctx.lead crm <;>
      simp [List.mem_append, List.mem_map, mem_cond_singleton] <;>
      exact eq_comm

/-- Witness for C1 on the concrete fixtures with a throwing create-account call. -/
theorem c1_witness :
    (importCustomer envW reqW crmFailW dbW).status = 500
    ∧ (importCustomer envW reqW crmFailW dbW).db = dbW
    ∧ Event.dbUpdateLeadImported "L1" "cust1" 7 ∉ (importCustomer envW reqW crmFailW dbW).events :=
  have h := c1_critical_failure_no_side_effects envW reqW crmFailW dbW ctxW (by decide)
    (Or.inl (by decide))
  ⟨h.1, h.2.1, h.2.2 "L1" "cust1" 7⟩

/-- Witness for C2: on the concrete fixtures the trace starts with the
create-account call followed immediately by the commit write. -/
theorem c2_witness :
    (importCustomer envW reqW crmOkW dbW).events.take 2 =
      [Event.crmCreateAccount (accountNameOf envW reqW ctxW.lead.name),
       Event.dbUpdateLeadImported "L1" "cust1" 7] := by
  obtain ⟨rest, h⟩ := c2_lead_update_precedes_best_effort envW reqW crmOkW dbW ctxW
    (by decide) (some "cust1") "cust1" (by decide) (by decide)
  rw [h]
  rfl

/-- Witness for C3 on the concrete fixtures, with a throwing contact call. -/
theorem c3_witness :
    (importCustomer envW reqW crmOkW dbW).status = 201
    ∧ (importCustomer envW reqW crmOkW dbW).customerId = some "cust1"
    ∧ leadW3.status = "Imported" ∧ leadW3.integration_id = some "cust1"
    ∧ leadW3.integration_platform = some "JobTread" ∧ leadW3.commission_rate = some 7 :=
  have h := c3_best_effort_failure_keeps_import envW reqW crmOkW dbW ctxW (by decide)
    (some "cust1") "cust1" (by decide) (by decide)
  have h3 := h.2.2 leadW3 (by decide) (by decide)
  ⟨h.1, h.2.1, h3.1, h3.2.1, h3.2.2.1, h3.2.2.2⟩

/-- Witness for C5 on the concrete fixtures: two active touch points, stored
newest-first, replayed oldest-first, with every comment call throwing. -/
theorem c5_witness :
    (importCustomer envW reqW crmOkW dbW).events.filterMap eventTouchPoint
        = activeTouchPointsAsc dbW "L1"
    ∧ ((importCustomer envW reqW crmOkW dbW).events.filterMap eventTouchPoint).length
        = (dbW.touch_points.filter (fun tp => tp.lead_id == "L1" && tp.is_active)).length
    ∧ List.Sorted (fun x y => x.created_at ≤ y.created_at) (activeTouchPointsAsc dbW "L1") :=
  c5_touch_point_replay envW reqW crmOkW dbW ctxW (by decide) (some "cust1") "cust1"
    (by decide) (by decide)

/-- Witness for C8 on the concrete fixtures: the location step produced loc1
and the job step produced job1. -/
theorem c8_witness :
    (Event.crmCreateJob "loc1" ∈ (importCustomer envW reqW crmOkW dbW).events
      ↔ locationIdOf leadW crmOkW = some "loc1")
    ∧ (Event.crmCopyChecklist "job1" "22PEApzGMSk8" false
          ∈ (importCustomer envW reqW crmOkW dbW).events
      ↔ jobIdOf leadW crmOkW = some "job1") :=
  have h := c8_job_and_checklist_gating envW reqW crmOkW dbW ctxW (by decide)
    (some "cust1") "cust1" (by decide) (by decide)
  ⟨h.1 "loc1", h.2 "job1"⟩


/-- The chunking helper on an exhausted id list. -/
theorem batchesOfAux_nil {α : Type} (fuel : Nat) : batchesOfAux fuel ([] : List α) = [] := by
  cases fuel <;> rfl

/-- One step of the chunking helper on a non-empty id list. -/
theorem batchesOfAux_cons_eq {α : Type} (fuel : Nat) (ids : List α) (h : ids ≠ []) :
    batchesOfAux (fuel + 1) ids = ids.take 10 :: batchesOfAux fuel (ids.drop 10) := by
  cases ids with
  | nil => exact absurd rfl h
  | cons x xs => rfl

/-- A character list always starts with itself, whatever follows it. -/
theorem isPrefixOf_append_self {α : Type} [BEq α] [LawfulBEq α] (l t : List α) :
    l.isPrefixOf (l ++ t) = true := by
  induction l with
  | nil => simp [List.isPrefixOf]
  | cons x xs ih => simp [List.isPrefixOf, ih]

/-- Claim C7: a header of the form Bearer-token and the bare token resolve to
the same credential handed to the identity gateway; the hypothesis records
that the bare value is a genuine bare token rather than itself carrying the
Bearer mark. -/
theorem c7_bearer_and_bare_equivalent (t : String)
    (h : bearerMark.data.isPrefixOf t.data = false) :
    extractToken (bearerMark ++ t) = t ∧ extractToken t = t := by
  obtain ⟨d⟩ := t
  constructor
  · have hp : bearerMark.data.isPrefixOf (bearerMark ++ String.mk d).data = true := by
      rw [String.data_append]
      exact isPrefixOf_append_self _ _
    have hd : (bearerMark ++ String.mk d).data.drop 7 = d := by
      rw [String.data_append]
      have h7 : bearerMark.data.length = 7 := by decide
      rw [← h7]
      exact List.drop_left _ _
    simp only [extractToken, hp, if_true]
    exact congrArg String.mk hd
  · simp [extractToken, h]

/-- Witness for C7 at the token abc. -/
theorem c7_witness :
    extractToken "Bearer abc" = "abc" ∧ extractToken "abc" = "abc" := by
  have h := c7_bearer_and_bare_equivalent "abc" (by decide)
  have e : bearerMark ++ "abc" = "Bearer abc" := by decide
  exact ⟨e ▸ h.1, h.2⟩

/-- Claim C4: after role resolution the gate attaches userRecord, userRole and
grantKey to the request context, and for a caller whose uid has an active
sales_rep row the attached grantKey is the grant_key column value of that row
(grant-key attachment modelled from the spec, see resolveGrantKey), so a rep
whose row has a grant key reaches the import-handler precondition with the key
set. -/
theorem c4_gate_attaches_grant_key
    (idp : IdentityGateway) (db : Db) (akp : Option String) (tok : String)
    (u : UserRecord) (rep : SalesRep) (reps : List SalesRep)
    (htok : tok ≠ "") (hx : extractToken tok ≠ "")
    (hv : idp.verifyIdToken (extractToken tok) = .ok (some rep.uid))
    (huid : rep.uid ≠ "")
    (hg : idp.getUser rep.uid = .ok (some u))
    (hrep : activeRepRows db rep.uid = rep :: reps) :
    (authMiddleware idp db akp (some tok)).httpStatus = none
    ∧ (authMiddleware idp db akp (some tok)).userRecord = some u
    ∧ "sales_rep" ∈ (authMiddleware idp db akp (some tok)).userRole
    ∧ (authMiddleware idp db akp (some tok)).grantKey = rep.grant_key := by
  simp [authMiddleware, idOf, htok, hx, hv, huid, hg, hrep, resolveGrantKey]

/-- Witness for C4 on the concrete fixtures. -/
theorem c4_witness :
    (authMiddleware idpW dbW none (some "token1")).httpStatus = none
    ∧ (authMiddleware idpW dbW none (some "token1")).userRecord = some uW
    ∧ "sales_rep" ∈ (authMiddleware idpW dbW none (some "token1")).userRole
    ∧ (authMiddleware idpW dbW none (some "token1")).grantKey = some "gk1" :=
  have h := c4_gate_attaches_grant_key idpW dbW none "token1" uW repW []
    (by decide) (by decide) (by decide) (by decide) (by decide) (by decide)
  ⟨h.1, h.2.1, h.2.2.1, h.2.2.2⟩

/-- Claim C9: an Imported lead is absent from the active-leads listing result
of every rep, because the listing filter excludes status Imported. -/
theorem c9_imported_absent_from_active_leads (db : Db) (uid : String) (l : Lead)
    (h : l.status = "Imported") : l ∉ activeLeadsListing db uid := by
  intro hmem
  rw [activeLeadsListing, List.Perm.mem_iff (List.perm_insertionSort _ _)] at hmem
  rw [List.mem_filter] at hmem
  have h2 := hmem.2
  simp [h] at h2

/-- Witness for C9: the imported concrete lead is not listed for its own rep. -/
theorem c9_witness : leadW3 ∉ activeLeadsListing dbImportedW "rep1" :=
  c9_imported_absent_from_active_leads dbImportedW "rep1" leadW3 (by decide)

/-- Every response the touch-point handler can produce is either absent (a 4xx
path) or carries follow_up_date null: each success path hands finishTouchPoint
the outer finalFollowUpDate variable, which stays at its initial null. -/
theorem createTouchPoint_resp_cases (req : TouchPointReq) (db : Db) (touchId : String)
    (nowCreatedAt : Nat) (twoDaysFromNow : String) :
    (createTouchPoint req db touchId nowCreatedAt twoDaysFromNow).resp = none
    ∨ ∃ x, (createTouchPoint req db touchId nowCreatedAt twoDaysFromNow).resp = some x
        ∧ x.follow_up_date = none := by
  unfold createTouchPoint
  dsimp only
  repeat' split
  all_goals first
    | exact Or.inl rfl
    | exact Or.inr ⟨_, rfl, rfl⟩

/-- Claim C10: every 201 response of the touch-point creation handler carries
follow_up_date null, whatever status change and follow-up date the request
supplied, because the date the handler persists is computed in a block-local
variable that shadows the one the response reads. -/
theorem c10_response_follow_up_always_null
    (req : TouchPointReq) (db : Db) (touchId : String) (nowCreatedAt : Nat)
    (twoDaysFromNow : String) (r : TouchPointResp)
    (h : (createTouchPoint req db touchId nowCreatedAt twoDaysFromNow).resp = some r) :
    r.follow_up_date = none := by
  rcases createTouchPoint_resp_cases req db touchId nowCreatedAt twoDaysFromNow with
    h0 | ⟨x, hx, hfx⟩
  · rw [h0] at h
    cases h
  · rw [hx] at h
    injection h with h
    rw [← h]
    exact hfx

/-- Witness for C10: the concrete Follow-up request persists the supplied date
to the lead row while the 201 response still carries follow_up_date null. -/
theorem c10_witness :
    (createTouchPoint tpReqW dbW "tpX" 12 "2026-10-13").resp = some tpRespW
    ∧ tpRespW.follow_up_date = none
    ∧ (createTouchPoint tpReqW dbW "tpX" 12 "2026-10-13").db.leads.map Lead.follow_up_date
        = [some "2026-10-20"] :=
  ⟨by decide,
   c10_response_follow_up_always_null tpReqW dbW "tpX" 12 "2026-10-13" tpRespW (by decide),
   by decide⟩

/-- Claim C6 (amended): twenty-five ids are partitioned into exactly three
batches of sizes ten, ten and five, and when no call throws exactly those
three CRM batch calls are issued; but the catch sits outside the loop, so when
the second batch call throws, the results of the first batch are kept while the
third batch is never called and its results cannot be reflected. -/
theorem c6_batching_and_abort_on_failure
    (crmFetch : List (Option String) → Except Unit (List JtAccount))
    (ids : List (Option String)) (h25 : ids.length = 25) :
    batchesOf ids = [ids.take 10, (ids.drop 10).take 10, (ids.drop 10).drop 10]
    ∧ (batchesOf ids).map List.length = [10, 10, 5]
    ∧ (∀ a1 a2 a3, crmFetch (ids.take 10) = .ok a1
        → crmFetch ((ids.drop 10).take 10) = .ok a2
        → crmFetch ((ids.drop 10).drop 10) = .ok a3
        → customerBatchLoop crmFetch (batchesOf ids)
            = (a1 ++ (a2 ++ a3), [ids.take 10, (ids.drop 10).take 10, (ids.drop 10).drop 10]))
    ∧ (∀ a1, crmFetch (ids.take 10) = .ok a1
        → crmFetch ((ids.drop 10).take 10) = .error ()
        → customerBatchLoop crmFetch (batchesOf ids)
            = (a1, [ids.take 10, (ids.drop 10).take 10])) := by
  have h1 : ids ≠ [] := by
    intro hnil; rw [hnil] at h25; simp at h25
  have hlen1 : (ids.drop 10).length = 15 := by simp [h25]
  have h2 : ids.drop 10 ≠ [] := by
    intro hnil; rw [hnil] at hlen1; simp at hlen1
  have hlen2 : ((ids.drop 10).drop 10).length = 5 := by simp [h25]
  have h3 : (ids.drop 10).drop 10 ≠ [] := by
    intro hnil; rw [hnil] at hlen2; simp at hlen2
  have h4 : ((ids.drop 10).drop 10).drop 10 = [] := by
    apply List.eq_nil_of_length_eq_zero
    simp only [List.length_drop]
    omega
  have e1 : (25 : Nat) = 24 + 1 := rfl
  have e2 : (24 : Nat) = 23 + 1 := rfl
  have e3 : (23 : Nat) = 22 + 1 := rfl
  have htake : ((ids.drop 10).drop 10).take 10 = (ids.drop 10).drop 10 :=
    List.take_of_length_le (by rw [hlen2]; decide)
  have hb : batchesOf ids = [ids.take 10, (ids.drop 10).take 10, (ids.drop 10).drop 10] := by
    rw [batchesOf, h25, e1, batchesOfAux_cons_eq 24 ids h1, e2,
      batchesOfAux_cons_eq 23 _ h2, e3, batchesOfAux_cons_eq 22 _ h3, h4, batchesOfAux_nil,
      htake]
  refine ⟨hb, ?_, ?_, ?_⟩
  · rw [hb]
    simp only [List.map_cons, List.map_nil, List.length_take, List.length_drop, h25]
    decide
  · intro a1 a2 a3 ha1 ha2 ha3
    rw [hb]
    simp only [List.drop_drop] at ha3
    simp [customerBatchLoop, ha1, ha2, ha3]
  · intro a1 ha1 ha2
    rw [hb]
    simp [customerBatchLoop, ha1, ha2]

/-- Witness for the amended C6 on the concrete fixtures: three batches of
sizes ten, ten and five, and with the second call throwing only two calls are
issued and only the accounts of the first call are kept. -/
theorem c6_witness :
    (batchesOf c6Ids).map List.length = [10, 10, 5]
    ∧ customerBatchLoop c6CrmFail (batchesOf c6Ids) = ([c6Acct1], [c6Batch1, c6Batch2]) :=
  have h := c6_batching_and_abort_on_failure c6CrmFail c6Ids (by decide)
  ⟨h.2.1, h.2.2.2 [c6Acct1] (by decide) (by decide)⟩

/-- Counterexample for C6 as stated: with twenty-five imported JobTread leads
and a CRM whose second accounts batch call throws, only two batch calls are
issued; the lead served by batch 1 is enriched in the final customer list, but
the lead whose account only batch 3 would have returned keeps a null
integration_name and an empty jobs array — the claim says the results of
batches 1 and 3 are both still reflected. -/
theorem c6_counterexample :
    (jobsCustomerAggregation c6CrmFail true c6Leads).2 = [c6Batch1, c6Batch2]
    ∧ (jobsCustomerAggregation c6CrmFail true c6Leads).1.filter
        (fun c => c.integration_id == some "c01")
        = [{ integration_id := some "c01", integration_platform := some "JobTread",
             integration_name := some "Acme 1",
             jobs := [{ id := "j1", name := "Kitchen remodel" }] }]
    ∧ (jobsCustomerAggregation c6CrmFail true c6Leads).1.filter
        (fun c => c.integration_id == some "c25")
        = [{ integration_id := some "c25", integration_platform := some "JobTread",
             integration_name := none, jobs := [] }] := by
  decide

end Easton
